import Mathlib

/-!
A shallow embedding of green/process.py: the crash-logging wrapper
(ProcessLogger), the daemonless worker process (DaemonlessProcess), the
pool repopulation step, the patched worker control loop (worker), the
cross-process exception transport (ExceptionWithTraceback, RemoteTraceback,
rebuild_exc), and the per-target runner (poolRunner).

Python exceptions are modelled by an inductive type, fallible operations by
Except, queues by lists of messages, and the mutable process-global
tempfile.tempdir by explicit state threading.  External collaborators that
are not part of this file (green.loader.loadTargets, green.result) are
modelled as parameters, with the progress-event behaviour of the result
recorder modelled from the spec.
-/

namespace Green

/-- Python exception values, as far as the code under study distinguishes
them: InitializerOrFinalizerError (from green.exceptions), IndexError,
TypeError, and arbitrary other exceptions carrying a class name and a
message. -/
inductive PyExc where
  | initFinalError (msg : String)
  | indexError
  | typeError (msg : String)
  | other (clsName msg : String)
deriving DecidableEq, Repr

/-- str(e) for the modelled exceptions. -/
def excStr : PyExc → String
  | .initFinalError m => m
  | .indexError => "list index out of range"
  | .typeError m => m
  | .other _ m => m

/-! ## Cross-process exception transport (process.py lines 205-226) -/

/-- RemoteTraceback(Exception): stores the traceback text; its str() is
exactly that text. -/
structure RemoteTraceback where
  tb : String
deriving DecidableEq, Repr

/-- RemoteTraceback.__str__: return self.tb verbatim. -/
def RemoteTraceback.toStr (r : RemoteTraceback) : String := r.tb

/-- A Python exception object as the transport sees it: its class, its
message, and its __cause__ slot (only ever set to a RemoteTraceback here). -/
structure PyError where
  kind : String
  msg : String
  cause : Option RemoteTraceback
deriving DecidableEq, Repr

/-- ExceptionWithTraceback after __init__: holds the stand-in exception and
the already-formatted, quote-framed traceback text. -/
structure ExceptionWithTraceback where
  exc : PyError
  tb : String
deriving DecidableEq, Repr

/-- ExceptionWithTraceback.__init__: format the traceback at capture time
(traceback.format_exception returns a list of strings, joined), then frame
it in newline/triple-quote delimiters.  The formatter is the standard
library collaborator, passed in as a parameter; tbObj stands for the
traceback object. -/
def ExceptionWithTraceback.make (format_exception : PyError → Nat → List String)
    (exc : PyError) (tbObj : Nat) : ExceptionWithTraceback :=
  let t := String.join (format_exception exc tbObj)
  { exc := exc, tb := "\n\"\"\"\n" ++ t ++ "\"\"\"" }

/-- ExceptionWithTraceback.__reduce__: pickle as (rebuild_exc, (exc, tb)). -/
def ExceptionWithTraceback.reduce (e : ExceptionWithTraceback) : PyError × String :=
  (e.exc, e.tb)

/-- rebuild_exc: on the receiving side, set the __cause__ of the stand-in
exception to a RemoteTraceback carrying the captured text. -/
def rebuild_exc (exc : PyError) (tb : String) : PyError :=
  { exc with cause := some ⟨tb⟩ }

/-! ## DaemonlessProcess (process.py lines 69-85) -/

/-- multiprocessing.Process subclass whose daemon attribute is a property:
the getter always returns False and the setter ignores its argument.  Only
the name attribute (mutated in _repopulate_pool) is otherwise relevant. -/
structure DaemonlessProcess where
  name : String
deriving DecidableEq, Repr

/-- DaemonlessProcess._get_daemon: always False. -/
def DaemonlessProcess.daemon (_ : DaemonlessProcess) : Bool := false

/-- DaemonlessProcess._set_daemon: ignore the assigned value. -/
def DaemonlessProcess.setDaemon (p : DaemonlessProcess) (_ : Bool) : DaemonlessProcess := p

/-- LoggingDaemonlessPool._repopulate_pool: spawn processes minus
len(pool) new DaemonlessProcess workers, rename each from Process to
PoolWorker, assign daemon = True (a no-op on DaemonlessProcess), and append
them to the pool.  mkName supplies the fresh default process names. -/
def repopulate_pool (processes : Nat) (pool : List DaemonlessProcess)
    (mkName : Nat → String) : List DaemonlessProcess :=
  pool ++ (List.range (processes - pool.length)).map (fun k =>
    DaemonlessProcess.setDaemon
      { name := (mkName k).replace "Process" "PoolWorker" } true)

/-! ## ProcessLogger and apply_async (process.py lines 38-65, 97-99) -/

/-- State of the lazily-configured multiprocessing logger: how many
handlers are installed, and the error records written so far. -/
structure MPLoggerState where
  handlers : Nat
  records : List String
deriving DecidableEq, Repr

/-- ProcessLogger wraps a callable; the callable is modelled by the outcome
of invoking it (a value or a raised exception). -/
structure ProcessLogger (α : Type) where
  callable : Except PyExc α

/-- LoggingDaemonlessPool.apply_async wraps the dispatched func in a
ProcessLogger before handing it to Pool.apply_async. -/
def LoggingDaemonlessPool.apply_async {α : Type} (func : Except PyExc α) :
    ProcessLogger α :=
  ⟨func⟩

/-- ProcessLogger.__call__: invoke the wrapped callable; on a normal return
pass the value through untouched; on an Exception, add a StreamHandler if
the logger has none, write the formatted traceback as an error record, and
re-raise the same exception. -/
def ProcessLogger.call {α : Type} (p : ProcessLogger α) (format_exc : PyExc → String)
    (st : MPLoggerState) : Except PyExc α × MPLoggerState :=
  match p.callable with
  | .ok v => (.ok v, st)
  | .error e =>
    let st1 := if st.handlers = 0 then { st with handlers := 1 } else st
    (.error e, { st1 with records := st1.records ++ [format_exc e] })

/-! ## The patched worker control loop (process.py lines 151-200) -/

/-- A value travelling in a result envelope: a successful return value, a
plain exception, an exception wrapped with its formatted traceback
(ExceptionWithTraceback, when wrap_exception is set), or the
MaybeEncodingError substituted when putting the envelope raised (it carries
the put exception and the original outcome value, as at the call site
MaybeEncodingError(e, result[1])). -/
inductive RVal where
  | val (v : Nat)
  | exc (e : PyExc)
  | excWithTb (e : PyExc) (tb : String)
  | maybeEncodingError (e : PyExc) (orig : RVal)
deriving DecidableEq, Repr

/-- A message put on the outqueue: (job, i, (success, value_or_error)). -/
abbrev Envelope := Nat × Nat × (Bool × RVal)

/-- One item obtained from the inqueue: get() raising EOFError/OSError, the
None sentinel, or a task (job, i, func, args, kwds) whose call
func(*args, **kwds) is modelled by its outcome. -/
inductive QItem where
  | raiseEOF
  | sentinel
  | task (job i : Nat) (res : Except PyExc Nat)
deriving Repr

/-- Why the worker while-loop stopped.  inputExhausted is a model artifact:
the modelled finite inqueue trace ran out where the real blocking get()
would wait forever.  putCrash is the uncaught exception raised by the
second, substituted put. -/
inductive StopReason where
  | gotSentinel
  | gotEOF
  | maxtasksReached
  | inputExhausted
  | putCrash
deriving DecidableEq, Repr

/-- Result of running the while-loop: envelopes successfully put on the
outqueue, the completed counter, the stop reason, and the exception
escaping the loop (only for putCrash). -/
structure LoopResult where
  outputs : List Envelope
  completed : Nat
  stop : StopReason
  crashExc : Option PyExc
deriving Repr

/-- The while condition, line 167: maxtasks is None or
(maxtasks and completed < maxtasks), with Python truthiness of the int
maxtasks made explicit. -/
def loopCond (maxtasks : Option Nat) (completed : Nat) : Bool :=
  match maxtasks with
  | none => true
  | some m => decide (m ≠ 0) && decide (completed < m)

/-- Lines 179-184: call the task function; a normal return yields
(True, value), a raised exception yields (False, e), the exception first
wrapped as ExceptionWithTraceback when wrap_exception is set (fmtTb is the
traceback formatter for the raised exception). -/
def taskResult (wrap_exception : Bool) (fmtTb : PyExc → String)
    (res : Except PyExc Nat) : Bool × RVal :=
  match res with
  | .ok v => (true, .val v)
  | .error e => (false, if wrap_exception then .excWithTb e (fmtTb e) else .exc e)

/-- The while-loop of worker, lines 167-192.  putRes models
outqueue.put: none means the put succeeded, some e that pickling the
message raised e.  A failed first put is retried once with the envelope
value replaced by MaybeEncodingError(e, result[1]); a failure of that
second put propagates (putCrash) and ends the worker without running the
finalizer. -/
def workerLoop (putRes : Envelope → Option PyExc) (fmtTb : PyExc → String)
    (wrap_exception : Bool) (maxtasks : Option Nat) :
    Nat → List QItem → LoopResult
  | completed, input =>
    if loopCond maxtasks completed then
      match input with
      | [] => ⟨[], completed, .inputExhausted, none⟩
      | .raiseEOF :: _ => ⟨[], completed, .gotEOF, none⟩
      | .sentinel :: _ => ⟨[], completed, .gotSentinel, none⟩
      | .task job i res :: rest =>
        let result := taskResult wrap_exception fmtTb res
        match putRes (job, i, result) with
        | none =>
          let r := workerLoop putRes fmtTb wrap_exception maxtasks (completed + 1) rest
          { r with outputs := (job, i, result) :: r.outputs }
        | some pe =>
          let wrapped := RVal.maybeEncodingError pe result.2
          match putRes (job, i, (false, wrapped)) with
          | none =>
            let r := workerLoop putRes fmtTb wrap_exception maxtasks (completed + 1) rest
            { r with outputs := (job, i, (false, wrapped)) :: r.outputs }
          | some pe2 => ⟨[], completed, .putCrash, some pe2⟩
    else
      ⟨[], completed, .maxtasksReached, none⟩

/-- Result of one whole run of worker: envelopes put, messages printed,
the completed counter, how many times the finalizer was invoked, the stop
reason of the loop (none when the initializer was fatal and the loop never
ran), and the exception propagating out of worker, if any. -/
structure WorkerRun where
  outputs : List Envelope
  prints : List String
  completed : Nat
  finalizerCalls : Nat
  stop : Option StopReason
  crashExc : Option PyExc
deriving Repr

/-- Lines 194-198: if finalizer is provided, invoke it once; an
InitializerOrFinalizerError is printed and swallowed, any other exception
propagates.  Returns (invocation count, prints, escaping exception). -/
def runFinalizer (finalizer : Option (Except PyExc Unit)) :
    Nat × List String × Option PyExc :=
  match finalizer with
  | none => (0, [], none)
  | some (.ok _) => (1, [], none)
  | some (.error (.initFinalError m)) => (1, [m], none)
  | some (.error e) => (1, [], some e)

/-- The loop followed by the finalizer part of worker: a putCrash
exception propagates out of the while-loop and skips the finalizer, since
line 194 is not in a finally block. -/
def workerBody (putRes : Envelope → Option PyExc) (fmtTb : PyExc → String)
    (wrap_exception : Bool) (maxtasks : Option Nat)
    (finalizer : Option (Except PyExc Unit)) (prints0 : List String)
    (input : List QItem) : WorkerRun :=
  let lr := workerLoop putRes fmtTb wrap_exception maxtasks 0 input
  if lr.stop = .putCrash then
    ⟨lr.outputs, prints0, lr.completed, 0, some lr.stop, lr.crashExc⟩
  else
    let fr := runFinalizer finalizer
    ⟨lr.outputs, prints0 ++ fr.2.1, lr.completed, fr.1, some lr.stop, fr.2.2⟩

/-- worker (lines 151-200).  The initializer, like the finalizer, is
modelled by the outcome of invoking it.  An initializer raising
InitializerOrFinalizerError has its message printed and the worker
continues; any other initializer exception is not caught and kills the
worker before the loop (lines 160-164).  The inqueue/outqueue handle
plumbing of lines 154-158 has no observable effect in the model. -/
def worker (putRes : Envelope → Option PyExc) (fmtTb : PyExc → String)
    (initializer : Option (Except PyExc Unit)) (maxtasks : Option Nat)
    (wrap_exception : Bool) (finalizer : Option (Except PyExc Unit))
    (input : List QItem) : WorkerRun :=
  match initializer with
  | some (.error (.initFinalError m)) =>
    workerBody putRes fmtTb wrap_exception maxtasks finalizer [m] input
  | some (.error e) => ⟨[], [], 0, 0, none, some e⟩
  | _ => workerBody putRes fmtTb wrap_exception maxtasks finalizer [] input

/-! ## poolRunner (process.py lines 233-319) -/

/-- A ProtoTest identity record: module, class name, description, method
name.  Modelled from the spec: green.result.ProtoTest is an external
collaborator whose fields poolRunner sets explicitly in every synthetic
branch. -/
structure PTest where
  module : String
  class_name : String
  description : String
  method_name : String
deriving DecidableEq, Repr

/-- A message on the live progress channel (the queue handed to
poolRunner).  Modelled from the spec: green.result.ProtoTestResult is an
external collaborator; its startTest pushes a started event through
start_callback and its stopTest pushes the finished result (errored records
whether an error outcome was added for the test) through stop_callback.
endOfStream is the final queue.put(None). -/
inductive Event where
  | started (t : PTest)
  | finished (t : PTest) (errored : Bool)
  | endOfStream
deriving DecidableEq, Repr

/-- The synthetic startTest / addError / stopTest sequence poolRunner
performs when it manufactures an error outcome for a ProtoTest. -/
def syntheticError (t : PTest) : List Event :=
  [.started t, .finished t true]

/-- Behaviour of test.run(result) for a loaded runnable object: the
progress events it emitted, the exception it let through (if any), and
whether result.errors is nonempty afterwards. -/
structure RunOutcome where
  events : List Event
  raised : Option PyExc
  errorsRecorded : Bool
deriving Repr

/-- What loadTargets returned when it did not raise: either an object
without a usable run attribute (getattr(test, run, False) falsy; this
includes None), carrying the str, type and dir renderings used in the
fallback description, or a runnable object. -/
inductive Loaded where
  | noRun (strRepr typeRepr dirRepr : String)
  | runnable (run : RunOutcome)
deriving Repr

/-- Observable outcome of one poolRunner call: the progress events put on
the queue, the final value of the process-global tempfile.tempdir, the
directories created by mkdtemp and removed by shutil.rmtree, and the
exception escaping poolRunner, if any. -/
structure PoolRunnerResult where
  events : List Event
  tempdirFinal : Option String
  createdDirs : List String
  removedDirs : List String
  raised : Option PyExc
deriving Repr

/-- Python str.split on the dot separator, character by character: split
the character list at every dot.  On an input without the separator the
result is the one-element list holding the whole input, and the result is
never empty, exactly as in Python. -/
def pySplitDotGo : List Char → List String
  | [] => [""]
  | a :: rest =>
    match pySplitDotGo rest with
    | [] => []
    | s :: ss =>
      if a = '.' then "" :: s :: ss
      else String.mk (a :: s.data) :: ss

/-- Python target.split with a dot argument. -/
def pySplitDot (s : String) : List String := pySplitDotGo s.data

/-- Python lst[-2] on a list of strings: IndexError when the list has
fewer than two elements. -/
def pyLast2 (l : List String) : Except PyExc String :=
  if 2 ≤ l.length then .ok (l.getD (l.length - 2) "") else .error .indexError

/-- Python lst[-1]: IndexError only on an empty list. -/
def pyLast1 (l : List String) : Except PyExc String :=
  if 1 ≤ l.length then .ok (l.getD (l.length - 1) "") else .error .indexError

/-- The else branch of poolRunner, lines 296-308: the loader returned (or
left) an un-runnable object.  Builds the description from the str, type
and dir renderings of the object, takes module from the dot-split target
minus its last two components, class name from component -2 (this indexing
raises IndexError when the target has no dot) and method name from
component -1, then emits one synthetic error outcome. -/
def unrunnableBranch (target : String) (strRepr typeRepr dirRepr : String) :
    Except PyExc (List Event) :=
  let parts := pySplitDot target
  let description := "Test loader returned an un-runnable object: " ++ strRepr
      ++ " of type " ++ typeRepr ++ " with dir " ++ dirRepr
  let m := String.intercalate "." (parts.take (parts.length - 2))
  match pyLast2 parts with
  | .error e => .error e
  | .ok cls =>
    match pyLast1 parts with
    | .error e => .error e
    | .ok meth => .ok (syntheticError ⟨m, cls, description, meth⟩)

/-- The events of the loader-error block, lines 266-275: when loadTargets
raises, one synthetic error outcome naming green.loader and poolRunner. -/
def loaderBlockEvents (loadRes : Except PyExc Loaded) : List Event :=
  match loadRes with
  | .error _ =>
    syntheticError ⟨"green.loader", "N/A",
      "Green encountered an error loading the unit test.", "poolRunner"⟩
  | .ok _ => []

/-- Lines 277-308: the branch on getattr(test, run, False).  When the
loader raised, test stays None and this falls into the un-runnable else
branch with the renderings of None.  A runnable object is run; an
exception it lets through is turned into one additional synthetic
green.runner error outcome only when result.errors is still empty. -/
def runBranch (target : String) (loadRes : Except PyExc Loaded) :
    Except PyExc (List Event) :=
  match loadRes with
  | .error _ => unrunnableBranch target "None" "NoneType" "dirOfNone"
  | .ok (.noRun s t d) => unrunnableBranch target s t d
  | .ok (.runnable run) =>
    match run.raised with
    | none => .ok run.events
    | some _ =>
      if run.errorsRecorded then .ok run.events
      else .ok (run.events ++ syntheticError ⟨"green.runner", "N/A",
        "Green encountered an exception not caught by the underlying test framework.",
        "poolRunner"⟩)

/-- poolRunner (lines 233-319), with the coverage collaborator out of
scope.  savedTempdir is the process-global tempfile.tempdir on entry and
freshDir the directory mkdtemp returns; loadRes is the outcome of
loadTargets(target).  When the run branch raises IndexError, lines 310-318
are skipped: nothing is removed, tempfile.tempdir keeps the fresh private
directory and no end-of-stream marker is put. -/
def poolRunner (target : String) (savedTempdir : Option String)
    (freshDir : String) (loadRes : Except PyExc Loaded) : PoolRunnerResult :=
  match runBranch target loadRes with
  | .error e => ⟨loaderBlockEvents loadRes, some freshDir, [freshDir], [], some e⟩
  | .ok evs =>
    ⟨loaderBlockEvents loadRes ++ evs ++ [Event.endOfStream], savedTempdir,
      [freshDir], [freshDir], none⟩

/-- The error outcomes among a list of progress events. -/
def errorOutcomes (evs : List Event) : List PTest :=
  evs.filterMap (fun ev => match ev with
    | .finished t true => some t
    | _ => none)

/-- Inqueue items on which the worker loop stops dequeuing: a raising get()
or the sentinel. -/
def isTerminator : QItem → Bool
  | .raiseEOF => true
  | .sentinel => true
  | .task _ _ _ => false

/-- Number of genuine tasks in an inqueue trace. -/
def countTasks (l : List QItem) : Nat :=
  l.countP (fun x => !isTerminator x)

/-! ## Theorems -/

/-- Claim C2: reducing ExceptionWithTraceback(e, tb) and applying
rebuild_exc on the receiving side yields the original exception value
(same kind and message) whose cause is a RemoteTraceback whose string
rendering is exactly the text captured at construction time, namely the
formatted traceback framed in newline and triple-quote delimiters. -/
theorem exception_transport_roundtrip
    (format_exception : PyError → Nat → List String) (exc : PyError) (tbObj : Nat) :
    (rebuild_exc (ExceptionWithTraceback.make format_exception exc tbObj).reduce.1
        (ExceptionWithTraceback.make format_exception exc tbObj).reduce.2).kind = exc.kind ∧
    (rebuild_exc (ExceptionWithTraceback.make format_exception exc tbObj).reduce.1
        (ExceptionWithTraceback.make format_exception exc tbObj).reduce.2).msg = exc.msg ∧
    ∃ rt : RemoteTraceback,
      (rebuild_exc (ExceptionWithTraceback.make format_exception exc tbObj).reduce.1
        (ExceptionWithTraceback.make format_exception exc tbObj).reduce.2).cause = some rt ∧
      rt.toStr = (ExceptionWithTraceback.make format_exception exc tbObj).tb ∧
      rt.toStr = "\n\"\"\"\n" ++ String.join (format_exception exc tbObj) ++ "\"\"\"" :=
  ⟨rfl, rfl, ⟨(ExceptionWithTraceback.make format_exception exc tbObj).tb⟩, rfl, rfl, rfl⟩

/-- Claim C8: every worker process the pool creates (at construction and
in repopulation, which assigns daemon = True) has daemon = False: the
getter always returns False and the setter is a no-op, so pool workers are
never restricted from spawning child processes. -/
theorem daemonless_workers_never_daemon
    (p : DaemonlessProcess) (v : Bool) (processes : Nat)
    (pool : List DaemonlessProcess) (mkName : Nat → String)
    (w : DaemonlessProcess) (_hw : w ∈ repopulate_pool processes pool mkName) :
    p.daemon = false ∧ p.setDaemon v = p ∧ w.daemon = false :=
  ⟨rfl, rfl, rfl⟩

/-- Witness for C8 at a concrete repopulated pool of one worker. -/
theorem daemonless_workers_never_daemon_witness :
    DaemonlessProcess.daemon ⟨"Process-1"⟩ = false ∧
    DaemonlessProcess.setDaemon ⟨"Process-1"⟩ true = ⟨"Process-1"⟩ ∧
    DaemonlessProcess.daemon
      (DaemonlessProcess.setDaemon
        ⟨"Process-1".replace "Process" "PoolWorker"⟩ true) = false :=
  daemonless_workers_never_daemon ⟨"Process-1"⟩ true 1 []
    (fun _ => "Process-1")
    (DaemonlessProcess.setDaemon ⟨"Process-1".replace "Process" "PoolWorker"⟩ true)
    (by simp [repopulate_pool])

/-- Claim C9: apply_async wraps the dispatched callable in ProcessLogger;
invoking the wrapper passes a normal return value through with the logger
state untouched, and on an uncaught Exception it writes the formatted
traceback to the process-level log (installing a handler when none
exists) and re-raises the same exception. -/
theorem apply_async_wraps_and_logs {α : Type}
    (func : Except PyExc α) (format_exc : PyExc → String) (st : MPLoggerState) :
    (LoggingDaemonlessPool.apply_async func).callable = func ∧
    (∀ v, func = .ok v →
      (LoggingDaemonlessPool.apply_async func).call format_exc st = (.ok v, st)) ∧
    (∀ e, func = .error e →
      ((LoggingDaemonlessPool.apply_async func).call format_exc st).1 = .error e ∧
      ((LoggingDaemonlessPool.apply_async func).call format_exc st).2.records =
        st.records ++ [format_exc e] ∧
      0 < ((LoggingDaemonlessPool.apply_async func).call format_exc st).2.handlers) := by
  refine ⟨rfl, ?_, ?_⟩
  · intro v h
    subst h
    rfl
  · intro e h
    subst h
    refine ⟨rfl, ?_, ?_⟩
    · simp only [LoggingDaemonlessPool.apply_async, ProcessLogger.call]
      split <;> rfl
    · show 0 < (if st.handlers = 0 then ({ st with handlers := 1 } : MPLoggerState)
          else st).handlers
      split
      · exact Nat.zero_lt_one
      · omega

/-- Witness for C9 at a concrete successful and a concrete raising
callable. -/
theorem apply_async_wraps_and_logs_witness :
    (LoggingDaemonlessPool.apply_async (Except.ok 5 : Except PyExc Nat)).call
        excStr ⟨0, []⟩ = (.ok 5, ⟨0, []⟩) ∧
    ((LoggingDaemonlessPool.apply_async
        (Except.error (PyExc.other "ValueError" "boom") : Except PyExc Nat)).call
        excStr ⟨0, []⟩).2.records = ["boom"] := by
  constructor
  · exact (apply_async_wraps_and_logs (Except.ok 5 : Except PyExc Nat)
      excStr ⟨0, []⟩).2.1 5 rfl
  · have h := (apply_async_wraps_and_logs
      (Except.error (PyExc.other "ValueError" "boom") : Except PyExc Nat)
      excStr ⟨0, []⟩).2.2 (PyExc.other "ValueError" "boom") rfl
    simpa using h.2.1

/-- Claim C1 counterexample: for the concrete target proj.TestA.test_x
whose loading raises an ImportError, the run does not emit exactly one
error outcome on the progress channel: because test stays None after the
loader raises, the un-runnable fallback also fires, so two error outcomes
are emitted before the end-of-stream marker. -/
theorem poolRunner_loader_failure_single_outcome_refuted :
    (errorOutcomes (poolRunner "proj.TestA.test_x" (some "/tmp") "/tmp/w1"
        (.error (.other "ImportError" "cannot import name"))).events).length = 2 ∧
    ¬ (errorOutcomes (poolRunner "proj.TestA.test_x" (some "/tmp") "/tmp/w1"
        (.error (.other "ImportError" "cannot import name"))).events).length = 1 := by
  constructor <;> decide

/-- Claim C1 amended: for every dot-containing target the loader fails on,
poolRunner emits exactly two synthetic error outcomes — first the loader
error (module green.loader, method poolRunner), then the un-runnable
fallback outcome derived from the dot-split target — never propagates the
raw loading failure, and the second outcome is followed immediately by the
end-of-stream marker. -/
theorem poolRunner_loader_failure_two_outcomes
    (target : String) (saved : Option String) (fresh : String) (e : PyExc)
    (hdot : 2 ≤ (pySplitDot target).length) :
    (poolRunner target saved fresh (.error e)).raised = none ∧
    ∃ t2 : PTest,
      t2.module = String.intercalate "."
        ((pySplitDot target).take ((pySplitDot target).length - 2)) ∧
      t2.class_name = (pySplitDot target).getD ((pySplitDot target).length - 2) "" ∧
      t2.method_name = (pySplitDot target).getD ((pySplitDot target).length - 1) "" ∧
      (poolRunner target saved fresh (.error e)).events =
        [Event.started ⟨"green.loader", "N/A",
            "Green encountered an error loading the unit test.", "poolRunner"⟩,
          Event.finished ⟨"green.loader", "N/A",
            "Green encountered an error loading the unit test.", "poolRunner"⟩ true,
          Event.started t2, Event.finished t2 true, Event.endOfStream] := by
  have h1 : 1 ≤ (pySplitDot target).length := le_trans (by omega) hdot
  have hb : runBranch target (.error e) =
      .ok (syntheticError
        ⟨String.intercalate "."
            ((pySplitDot target).take ((pySplitDot target).length - 2)),
          (pySplitDot target).getD ((pySplitDot target).length - 2) "",
          "Test loader returned an un-runnable object: " ++ "None" ++ " of type "
            ++ "NoneType" ++ " with dir " ++ "dirOfNone",
          (pySplitDot target).getD ((pySplitDot target).length - 1) ""⟩) := by
    simp only [runBranch, unrunnableBranch, pyLast2, pyLast1, if_pos hdot, if_pos h1]
  refine ⟨?_, ?_⟩
  · simp only [poolRunner, hb]
  · refine ⟨⟨String.intercalate "."
        ((pySplitDot target).take ((pySplitDot target).length - 2)),
      (pySplitDot target).getD ((pySplitDot target).length - 2) "",
      "Test loader returned an un-runnable object: " ++ "None" ++ " of type "
        ++ "NoneType" ++ " with dir " ++ "dirOfNone",
      (pySplitDot target).getD ((pySplitDot target).length - 1) ""⟩,
      rfl, rfl, rfl, ?_⟩
    simp only [poolRunner, hb, loaderBlockEvents, syntheticError]
    rfl

/-- Witness for the amended C1 at the concrete target proj.TestA.test_x. -/
theorem poolRunner_loader_failure_two_outcomes_witness :
    (poolRunner "proj.TestA.test_x" (some "/tmp") "/tmp/w1"
        (.error (.other "ImportError" "cannot import name"))).raised = none ∧
    ∃ t2 : PTest,
      t2.module = String.intercalate "."
        ((pySplitDot "proj.TestA.test_x").take
          ((pySplitDot "proj.TestA.test_x").length - 2)) ∧
      t2.class_name = (pySplitDot "proj.TestA.test_x").getD
        ((pySplitDot "proj.TestA.test_x").length - 2) "" ∧
      t2.method_name = (pySplitDot "proj.TestA.test_x").getD
        ((pySplitDot "proj.TestA.test_x").length - 1) "" ∧
      (poolRunner "proj.TestA.test_x" (some "/tmp") "/tmp/w1"
          (.error (.other "ImportError" "cannot import name"))).events =
        [Event.started ⟨"green.loader", "N/A",
            "Green encountered an error loading the unit test.", "poolRunner"⟩,
          Event.finished ⟨"green.loader", "N/A",
            "Green encountered an error loading the unit test.", "poolRunner"⟩ true,
          Event.started t2, Event.finished t2 true, Event.endOfStream] :=
  poolRunner_loader_failure_two_outcomes "proj.TestA.test_x" (some "/tmp") "/tmp/w1"
    (.other "ImportError" "cannot import name") (by decide)

/-- Claim C6 counterexample: for the concrete dotless target
targetwithnodots whose loading raises, the un-runnable fallback raises
IndexError before the cleanup lines run: the private root is neither
removed nor is the saved default temp root restored, refuting the claim
for every execution of poolRunner. -/
theorem poolRunner_tempdir_restore_refuted :
    ¬ ((poolRunner "targetwithnodots" (some "/orig") "/tmp/w2"
          (.error (.other "ImportError" "nope"))).tempdirFinal = some "/orig" ∧
        (poolRunner "targetwithnodots" (some "/orig") "/tmp/w2"
          (.error (.other "ImportError" "nope"))).removedDirs = ["/tmp/w2"]) := by
  decide

/-- Claim C6 amended: every execution of poolRunner creates and installs
the fresh private temp root before the target runs, and every execution
that does not itself raise — loading succeeded, or the run passed, failed
or raised — removes that private root and restores the previously saved
default temp root at the end; the modelled process-default state is
otherwise untouched. -/
theorem poolRunner_tempdir_fresh_and_restored
    (target : String) (saved : Option String) (fresh : String)
    (loadRes : Except PyExc Loaded) :
    (poolRunner target saved fresh loadRes).createdDirs = [fresh] ∧
    ((poolRunner target saved fresh loadRes).raised = none →
      (poolRunner target saved fresh loadRes).tempdirFinal = saved ∧
      (poolRunner target saved fresh loadRes).removedDirs = [fresh]) := by
  rcases hb : runBranch target loadRes with e | evs <;>
    simp [poolRunner, hb]

/-- Witness for the amended C6 at a concrete passing run. -/
theorem poolRunner_tempdir_fresh_and_restored_witness :
    (poolRunner "proj.TestA.test_x" (some "/orig") "/tmp/w3"
        (.ok (.runnable ⟨[], none, false⟩))).createdDirs = ["/tmp/w3"] ∧
    ((poolRunner "proj.TestA.test_x" (some "/orig") "/tmp/w3"
        (.ok (.runnable ⟨[], none, false⟩))).raised = none →
      (poolRunner "proj.TestA.test_x" (some "/orig") "/tmp/w3"
          (.ok (.runnable ⟨[], none, false⟩))).tempdirFinal = some "/orig" ∧
      (poolRunner "proj.TestA.test_x" (some "/orig") "/tmp/w3"
          (.ok (.runnable ⟨[], none, false⟩))).removedDirs = ["/tmp/w3"]) :=
  poolRunner_tempdir_fresh_and_restored "proj.TestA.test_x" (some "/orig") "/tmp/w3"
    (.ok (.runnable ⟨[], none, false⟩))

/-- Claim C10: for any dotless target on which the loader raised or
returned an object without a run attribute, the fallback indexing of the
dot-split target raises IndexError out of poolRunner itself: no
end-of-stream marker is emitted, nothing is removed and the default temp
root is left pointing at the fresh private directory instead of being
restored. -/
theorem poolRunner_dotless_target_indexError
    (target : String) (saved : Option String) (fresh : String)
    (loadRes : Except PyExc Loaded)
    (hnodot : (pySplitDot target).length < 2)
    (hfresh : some fresh ≠ saved)
    (hbranch : (∃ e, loadRes = .error e) ∨ ∃ s t d, loadRes = .ok (.noRun s t d)) :
    (poolRunner target saved fresh loadRes).raised = some .indexError ∧
    Event.endOfStream ∉ (poolRunner target saved fresh loadRes).events ∧
    (poolRunner target saved fresh loadRes).tempdirFinal = some fresh ∧
    (poolRunner target saved fresh loadRes).tempdirFinal ≠ saved ∧
    (poolRunner target saved fresh loadRes).removedDirs = [] := by
  have h2 : ¬ 2 ≤ (pySplitDot target).length := by omega
  have hb : runBranch target loadRes = .error .indexError := by
    rcases hbranch with ⟨e, he⟩ | ⟨s, t, d, he⟩ <;> subst he <;>
      simp only [runBranch, unrunnableBranch, pyLast2, if_neg h2]
  have hres : poolRunner target saved fresh loadRes =
      ⟨loaderBlockEvents loadRes, some fresh, [fresh], [], some .indexError⟩ := by
    simp [poolRunner, hb]
  refine ⟨by rw [hres], ?_, by rw [hres], ?_, by rw [hres]⟩
  · rw [hres]
    rcases hbranch with ⟨e, he⟩ | ⟨s, t, d, he⟩ <;> subst he <;>
      simp [loaderBlockEvents, syntheticError]
  · rw [hres]
    exact hfresh

/-- Witness for C10 at the concrete dotless target mytests. -/
theorem poolRunner_dotless_target_indexError_witness :
    (poolRunner "mytests" (some "/orig") "/tmp/w4"
        (.error (.other "ImportError" "bad"))).raised = some .indexError ∧
    Event.endOfStream ∉ (poolRunner "mytests" (some "/orig") "/tmp/w4"
        (.error (.other "ImportError" "bad"))).events ∧
    (poolRunner "mytests" (some "/orig") "/tmp/w4"
        (.error (.other "ImportError" "bad"))).tempdirFinal = some "/tmp/w4" ∧
    (poolRunner "mytests" (some "/orig") "/tmp/w4"
        (.error (.other "ImportError" "bad"))).tempdirFinal ≠ some "/orig" ∧
    (poolRunner "mytests" (some "/orig") "/tmp/w4"
        (.error (.other "ImportError" "bad"))).removedDirs = [] :=
  poolRunner_dotless_target_indexError "mytests" (some "/orig") "/tmp/w4"
    (.error (.other "ImportError" "bad")) (by decide) (by decide)
    (Or.inl ⟨.other "ImportError" "bad", rfl⟩)

/-- One-step unfolding of the worker loop when the while condition is
false: the loop exits with the completed counter untouched. -/
theorem workerLoop_stop_cond (putRes : Envelope → Option PyExc)
    (fmtTb : PyExc → String) (wrap_exception : Bool) (maxtasks : Option Nat)
    (completed : Nat) (input : List QItem)
    (hc : loopCond maxtasks completed = false) :
    workerLoop putRes fmtTb wrap_exception maxtasks completed input =
      ⟨[], completed, .maxtasksReached, none⟩ := by
  conv_lhs => rw [workerLoop.eq_def]
  simp [hc]

/-- One-step unfolding on an exhausted modelled trace. -/
theorem workerLoop_nil (putRes : Envelope → Option PyExc)
    (fmtTb : PyExc → String) (wrap_exception : Bool) (maxtasks : Option Nat)
    (completed : Nat) (hc : loopCond maxtasks completed = true) :
    workerLoop putRes fmtTb wrap_exception maxtasks completed [] =
      ⟨[], completed, .inputExhausted, none⟩ := by
  conv_lhs => rw [workerLoop.eq_def]
  simp [hc]

/-- One-step unfolding when get() raises EOFError or OSError. -/
theorem workerLoop_eof (putRes : Envelope → Option PyExc)
    (fmtTb : PyExc → String) (wrap_exception : Bool) (maxtasks : Option Nat)
    (completed : Nat) (rest : List QItem)
    (hc : loopCond maxtasks completed = true) :
    workerLoop putRes fmtTb wrap_exception maxtasks completed (.raiseEOF :: rest) =
      ⟨[], completed, .gotEOF, none⟩ := by
  conv_lhs => rw [workerLoop.eq_def]
  simp [hc]

/-- One-step unfolding when the sentinel is dequeued. -/
theorem workerLoop_sentinel (putRes : Envelope → Option PyExc)
    (fmtTb : PyExc → String) (wrap_exception : Bool) (maxtasks : Option Nat)
    (completed : Nat) (rest : List QItem)
    (hc : loopCond maxtasks completed = true) :
    workerLoop putRes fmtTb wrap_exception maxtasks completed (.sentinel :: rest) =
      ⟨[], completed, .gotSentinel, none⟩ := by
  conv_lhs => rw [workerLoop.eq_def]
  simp [hc]

/-- One-step unfolding on a task whose result envelope is put
successfully: the envelope is emitted and the loop continues on the rest
of the trace with the counter incremented. -/
theorem workerLoop_task_put_ok (putRes : Envelope → Option PyExc)
    (fmtTb : PyExc → String) (wrap_exception : Bool) (maxtasks : Option Nat)
    (completed job i : Nat) (res : Except PyExc Nat) (rest : List QItem)
    (hc : loopCond maxtasks completed = true)
    (hput : putRes (job, i, taskResult wrap_exception fmtTb res) = none) :
    workerLoop putRes fmtTb wrap_exception maxtasks completed
        (QItem.task job i res :: rest) =
      { workerLoop putRes fmtTb wrap_exception maxtasks (completed + 1) rest with
        outputs := (job, i, taskResult wrap_exception fmtTb res) ::
          (workerLoop putRes fmtTb wrap_exception maxtasks (completed + 1) rest).outputs } := by
  conv_lhs => rw [workerLoop.eq_def]
  simp [hc, hput]

/-- One-step unfolding on a task whose result envelope fails to put but
whose substituted MaybeEncodingError envelope succeeds. -/
theorem workerLoop_task_put_fail (putRes : Envelope → Option PyExc)
    (fmtTb : PyExc → String) (wrap_exception : Bool) (maxtasks : Option Nat)
    (completed job i : Nat) (res : Except PyExc Nat) (rest : List QItem) (pe : PyExc)
    (hc : loopCond maxtasks completed = true)
    (hput : putRes (job, i, taskResult wrap_exception fmtTb res) = some pe)
    (hok : putRes (job, i, (false,
      RVal.maybeEncodingError pe (taskResult wrap_exception fmtTb res).2)) = none) :
    workerLoop putRes fmtTb wrap_exception maxtasks completed
        (QItem.task job i res :: rest) =
      { workerLoop putRes fmtTb wrap_exception maxtasks (completed + 1) rest with
        outputs := (job, i, (false,
          RVal.maybeEncodingError pe (taskResult wrap_exception fmtTb res).2)) ::
          (workerLoop putRes fmtTb wrap_exception maxtasks (completed + 1) rest).outputs } := by
  conv_lhs => rw [workerLoop.eq_def]
  simp [hc, hput, hok]

/-- Claim C4: a dequeued task whose function raises yields the result
envelope (False, error) — the error wrapped with its traceback when
wrap_exception is set — the worker loop does not crash, and it continues
dequeuing the subsequent trace with the counter incremented. -/
theorem worker_task_error_envelope_and_continues (putRes : Envelope → Option PyExc)
    (fmtTb : PyExc → String) (wrap_exception : Bool) (maxtasks : Option Nat)
    (completed job i : Nat) (e : PyExc) (rest : List QItem)
    (hc : loopCond maxtasks completed = true)
    (hput : putRes (job, i, taskResult wrap_exception fmtTb (.error e)) = none) :
    taskResult wrap_exception fmtTb (.error e) =
      (false, if wrap_exception then RVal.excWithTb e (fmtTb e) else RVal.exc e) ∧
    workerLoop putRes fmtTb wrap_exception maxtasks completed
        (QItem.task job i (.error e) :: rest) =
      { workerLoop putRes fmtTb wrap_exception maxtasks (completed + 1) rest with
        outputs := (job, i, taskResult wrap_exception fmtTb (.error e)) ::
          (workerLoop putRes fmtTb wrap_exception maxtasks (completed + 1) rest).outputs } :=
  ⟨rfl, workerLoop_task_put_ok putRes fmtTb wrap_exception maxtasks completed job i
    (.error e) rest hc hput⟩

/-- Witness for C4: a concrete failing task followed by the sentinel, with
exception wrapping on. -/
theorem worker_task_error_envelope_witness :
    workerLoop (fun _ => none) excStr true none 0
        [QItem.task 7 3 (.error (.typeError "bad")), QItem.sentinel] =
      { workerLoop (fun _ => none) excStr true none 1 [QItem.sentinel] with
        outputs := (7, 3, (false, RVal.excWithTb (.typeError "bad") "bad")) ::
          (workerLoop (fun _ => none) excStr true none 1 [QItem.sentinel]).outputs } := by
  have h := worker_task_error_envelope_and_continues (fun _ => none) excStr true none
    0 7 3 (.typeError "bad") [QItem.sentinel] rfl rfl
  exact h.2

/-- Claim C3: when putting a task result envelope on the output channel
raises, the worker substitutes the deterministic wrapped envelope
(False, MaybeEncodingError(error, original value)) under the same job id
and sequence index, so the coordinator receives an envelope for the task,
and the loop continues. -/
theorem worker_put_failure_substitutes_wrapped (putRes : Envelope → Option PyExc)
    (fmtTb : PyExc → String) (wrap_exception : Bool) (maxtasks : Option Nat)
    (completed job i : Nat) (res : Except PyExc Nat) (rest : List QItem) (pe : PyExc)
    (hc : loopCond maxtasks completed = true)
    (hput : putRes (job, i, taskResult wrap_exception fmtTb res) = some pe)
    (hok : putRes (job, i, (false,
      RVal.maybeEncodingError pe (taskResult wrap_exception fmtTb res).2)) = none) :
    workerLoop putRes fmtTb wrap_exception maxtasks completed
        (QItem.task job i res :: rest) =
      { workerLoop putRes fmtTb wrap_exception maxtasks (completed + 1) rest with
        outputs := (job, i, (false,
          RVal.maybeEncodingError pe (taskResult wrap_exception fmtTb res).2)) ::
          (workerLoop putRes fmtTb wrap_exception maxtasks (completed + 1) rest).outputs } :=
  workerLoop_task_put_fail putRes fmtTb wrap_exception maxtasks completed job i res
    rest pe hc hput hok

/-- Witness for C3: a channel that rejects everything except
MaybeEncodingError envelopes, and one successful task. -/
theorem worker_put_failure_substitutes_wrapped_witness :
    workerLoop
        (fun env => match env.2.2.2 with
          | RVal.maybeEncodingError _ _ => none
          | _ => some (.other "PicklingError" "unpicklable"))
        excStr false none 0 [QItem.task 5 0 (.ok 3), QItem.sentinel] =
      { workerLoop
          (fun env => match env.2.2.2 with
            | RVal.maybeEncodingError _ _ => none
            | _ => some (.other "PicklingError" "unpicklable"))
          excStr false none 1 [QItem.sentinel] with
        outputs := (5, 0, (false,
          RVal.maybeEncodingError (.other "PicklingError" "unpicklable")
            (taskResult false excStr (.ok 3)).2)) ::
          (workerLoop
            (fun env => match env.2.2.2 with
              | RVal.maybeEncodingError _ _ => none
              | _ => some (.other "PicklingError" "unpicklable"))
            excStr false none 1 [QItem.sentinel]).outputs } :=
  worker_put_failure_substitutes_wrapped
    (fun env => match env.2.2.2 with
      | RVal.maybeEncodingError _ _ => none
      | _ => some (.other "PicklingError" "unpicklable"))
    excStr false none 0 5 0 (.ok 3) [QItem.sentinel]
    (.other "PicklingError" "unpicklable") rfl rfl rfl

/-- The prints of workerBody are its initial prints followed by whatever
the finalizer prints. -/
theorem workerBody_prints_cons (putRes : Envelope → Option PyExc)
    (fmtTb : PyExc → String) (wrap_exception : Bool) (maxtasks : Option Nat)
    (finalizer : Option (Except PyExc Unit)) (m : String) (input : List QItem) :
    workerBody putRes fmtTb wrap_exception maxtasks finalizer [m] input =
      { workerBody putRes fmtTb wrap_exception maxtasks finalizer [] input with
        prints := m ::
          (workerBody putRes fmtTb wrap_exception maxtasks finalizer [] input).prints } := by
  simp only [workerBody]
  by_cases h :
      (workerLoop putRes fmtTb wrap_exception maxtasks 0 input).stop =
        StopReason.putCrash <;>
    simp [h]

/-- Claim C7: an initializer raising InitializerOrFinalizerError has its
message printed and the worker then behaves exactly as with a
successfully-returning initializer, processing subsequent tasks normally;
an initializer raising any other exception kind is fatal: the exception
propagates and the worker processes nothing, prints nothing and never runs
the finalizer. -/
theorem worker_initializer_error_handling (putRes : Envelope → Option PyExc)
    (fmtTb : PyExc → String) (maxtasks : Option Nat) (wrap_exception : Bool)
    (finalizer : Option (Except PyExc Unit)) (input : List QItem)
    (m : String) (e : PyExc) (he : ∀ s, e ≠ PyExc.initFinalError s) :
    worker putRes fmtTb (some (.error (.initFinalError m))) maxtasks
        wrap_exception finalizer input =
      { worker putRes fmtTb none maxtasks wrap_exception finalizer input with
        prints := m ::
          (worker putRes fmtTb none maxtasks wrap_exception finalizer input).prints } ∧
    worker putRes fmtTb (some (.error e)) maxtasks wrap_exception finalizer input =
      ⟨[], [], 0, 0, none, some e⟩ := by
  constructor
  · simp only [worker]
    exact workerBody_prints_cons putRes fmtTb wrap_exception maxtasks finalizer m input
  · cases e with
    | initFinalError s => exact absurd rfl (he s)
    | indexError => rfl
    | typeError s => rfl
    | other a b => rfl

/-- Witness for C7 at a concrete designated error message and a concrete
fatal TypeError. -/
theorem worker_initializer_error_handling_witness :
    worker (fun _ => none) excStr (some (.error (.initFinalError "bad init")))
        none false none [] =
      { worker (fun _ => none) excStr none none false none [] with
        prints := "bad init" ::
          (worker (fun _ => none) excStr none none false none []).prints } ∧
    worker (fun _ => none) excStr (some (.error (.typeError "boom")))
        none false none [] =
      ⟨[], [], 0, 0, none, some (.typeError "boom")⟩ :=
  worker_initializer_error_handling (fun _ => none) excStr none false none []
    "bad init" (.typeError "boom") (fun _ h => PyExc.noConfusion h)

/-- A provided finalizer is invoked exactly once, whatever its outcome. -/
theorem runFinalizer_calls_one (f : Except PyExc Unit) :
    (runFinalizer (some f)).1 = 1 := by
  rcases f with e | u
  · cases e <;> rfl
  · rfl

/-- The while-loop of worker stops only at a sentinel, a raising get(),
or on reaching maxtasks (at which point the counter equals maxtasks),
provided maxtasks respects the asserted precondition, substituted
MaybeEncodingError envelopes always transmit, and the trace contains a
terminator or enough tasks to reach maxtasks. -/
theorem workerLoop_terminates (putRes : Envelope → Option PyExc)
    (fmtTb : PyExc → String) (wrap_exception : Bool) (maxtasks : Option Nat)
    (hmax : maxtasks = none ∨ ∃ m, maxtasks = some m ∧ 0 < m)
    (hput2 : ∀ job i pe v, putRes (job, i, (false, RVal.maybeEncodingError pe v)) = none) :
    ∀ (input : List QItem) (completed : Nat),
      (∀ m, maxtasks = some m → completed ≤ m) →
      ((∃ x ∈ input, isTerminator x = true) ∨
        ∃ m, maxtasks = some m ∧ m ≤ completed + countTasks input) →
      (workerLoop putRes fmtTb wrap_exception maxtasks completed input).stop =
          .gotSentinel ∨
      (workerLoop putRes fmtTb wrap_exception maxtasks completed input).stop =
          .gotEOF ∨
      ((workerLoop putRes fmtTb wrap_exception maxtasks completed input).stop =
          .maxtasksReached ∧
        maxtasks =
          some (workerLoop putRes fmtTb wrap_exception maxtasks completed input).completed) := by
  intro input
  induction input with
  | nil =>
    intro completed hinv hterm
    rcases hterm with ⟨x, hx, _⟩ | ⟨m, hm, hle⟩
    · simp at hx
    · have hcm : completed = m := by
        have h1 : completed ≤ m := hinv m hm
        have h2 : m ≤ completed := by simpa [countTasks] using hle
        omega
      have hc : loopCond maxtasks completed = false := by
        subst hm
        simp [loopCond, hcm]
      rw [workerLoop_stop_cond putRes fmtTb wrap_exception maxtasks completed [] hc]
      exact Or.inr (Or.inr ⟨rfl, by simpa [hcm] using hm⟩)
  | cons hd tl ih =>
    intro completed hinv hterm
    by_cases hc : loopCond maxtasks completed = true
    · cases hd with
      | raiseEOF =>
        rw [workerLoop_eof putRes fmtTb wrap_exception maxtasks completed tl hc]
        exact Or.inr (Or.inl rfl)
      | sentinel =>
        rw [workerLoop_sentinel putRes fmtTb wrap_exception maxtasks completed tl hc]
        exact Or.inl rfl
      | task job i res =>
        have hinv' : ∀ m, maxtasks = some m → completed + 1 ≤ m := by
          intro m hm
          subst hm
          have : m ≠ 0 ∧ completed < m := by simpa [loopCond] using hc
          omega
        have hterm' : (∃ x ∈ tl, isTerminator x = true) ∨
            ∃ m, maxtasks = some m ∧ m ≤ (completed + 1) + countTasks tl := by
          rcases hterm with ⟨x, hx, hxt⟩ | ⟨m, hm, hle⟩
          · rcases List.mem_cons.mp hx with h | h
            · subst h
              simp [isTerminator] at hxt
            · exact Or.inl ⟨x, h, hxt⟩
          · refine Or.inr ⟨m, hm, ?_⟩
            have hct : countTasks (QItem.task job i res :: tl) = countTasks tl + 1 := by
              simp [countTasks, isTerminator]
            omega
        have hrec := ih (completed + 1) hinv' hterm'
        cases hput : putRes (job, i, taskResult wrap_exception fmtTb res) with
        | none =>
          rw [workerLoop_task_put_ok putRes fmtTb wrap_exception maxtasks completed
            job i res tl hc hput]
          simpa using hrec
        | some pe =>
          rw [workerLoop_task_put_fail putRes fmtTb wrap_exception maxtasks completed
            job i res tl pe hc hput
            (hput2 job i pe (taskResult wrap_exception fmtTb res).2)]
          simpa using hrec
    · have hc' : loopCond maxtasks completed = false := by
        simpa using hc
      rw [workerLoop_stop_cond putRes fmtTb wrap_exception maxtasks completed
        (hd :: tl) hc']
      rcases hmax with hnone | ⟨m, hm, hpos⟩
      · subst hnone
        simp [loopCond] at hc'
      · subst hm
        have h1 : completed ≤ m := hinv m rfl
        have h2 : ¬(m ≠ 0 ∧ completed < m) := by simpa [loopCond] using hc'
        have hcm : completed = m := by omega
        exact Or.inr (Or.inr ⟨rfl, by simp [hcm]⟩)

/-- Claim C5: with maxtasks None or positive, a non-fatal initializer,
always-transmitting substituted envelopes and a trace that contains a
sentinel or raising get() or enough tasks, the worker loop terminates
exactly at a dequeued sentinel, a dequeue raising end-of-stream or an
OS-level read error, or when the completed counter reaches maxtasks, and
the provided finalizer runs exactly once after the loop. -/
theorem worker_termination_and_finalizer_once (putRes : Envelope → Option PyExc)
    (fmtTb : PyExc → String) (initializer : Option (Except PyExc Unit))
    (maxtasks : Option Nat) (wrap_exception : Bool)
    (finalizer : Option (Except PyExc Unit)) (input : List QItem)
    (hmax : maxtasks = none ∨ ∃ m, maxtasks = some m ∧ 0 < m)
    (hinit : ∀ e, initializer = some (.error e) → ∃ s, e = PyExc.initFinalError s)
    (hput2 : ∀ job i pe v, putRes (job, i, (false, RVal.maybeEncodingError pe v)) = none)
    (hfin : ∃ f, finalizer = some f)
    (hterm : (∃ x ∈ input, isTerminator x = true) ∨
      ∃ m, maxtasks = some m ∧ m ≤ countTasks input) :
    ((worker putRes fmtTb initializer maxtasks wrap_exception finalizer input).stop =
        some .gotSentinel ∨
      (worker putRes fmtTb initializer maxtasks wrap_exception finalizer input).stop =
        some .gotEOF ∨
      ((worker putRes fmtTb initializer maxtasks wrap_exception finalizer input).stop =
          some .maxtasksReached ∧
        maxtasks =
          some (worker putRes fmtTb initializer maxtasks wrap_exception finalizer input).completed)) ∧
    (worker putRes fmtTb initializer maxtasks wrap_exception finalizer input).finalizerCalls
      = 1 := by
  obtain ⟨f, hf⟩ := hfin
  have hloop := workerLoop_terminates putRes fmtTb wrap_exception maxtasks hmax hput2
    input 0 (fun m _ => Nat.zero_le m) (by simpa using hterm)
  have hnotcrash :
      ¬ (workerLoop putRes fmtTb wrap_exception maxtasks 0 input).stop =
        StopReason.putCrash := by
    rcases hloop with h | h | ⟨h, _⟩ <;> simp [h]
  have hbody : ∀ prints0 : List String,
      ((workerBody putRes fmtTb wrap_exception maxtasks finalizer prints0 input).stop =
          some .gotSentinel ∨
        (workerBody putRes fmtTb wrap_exception maxtasks finalizer prints0 input).stop =
          some .gotEOF ∨
        ((workerBody putRes fmtTb wrap_exception maxtasks finalizer prints0 input).stop =
            some .maxtasksReached ∧
          maxtasks =
            some (workerBody putRes fmtTb wrap_exception maxtasks finalizer prints0 input).completed)) ∧
      (workerBody putRes fmtTb wrap_exception maxtasks finalizer prints0 input).finalizerCalls
        = 1 := by
    intro prints0
    simp only [workerBody, hnotcrash, if_false]
    constructor
    · rcases hloop with h | h | ⟨h, hm⟩
      · exact Or.inl (by simp [h])
      · exact Or.inr (Or.inl (by simp [h]))
      · exact Or.inr (Or.inr ⟨by simp [h], by simpa using hm⟩)
    · subst hf
      simpa using runFinalizer_calls_one f
  rcases initializer with _ | ie
  · exact hbody []
  · rcases ie with e | u
    · obtain ⟨s, hs⟩ := hinit e rfl
      subst hs
      exact hbody [s]
    · exact hbody []

/-- Witness for C5: one successful task then the sentinel, no maxtasks
limit, no initializer, a finalizer that returns normally, and a channel
that accepts everything. -/
theorem worker_termination_and_finalizer_once_witness :
    ((worker (fun _ => none) excStr none none false (some (.ok ()))
        [QItem.task 1 0 (.ok 42), QItem.sentinel]).stop = some .gotSentinel ∨
      (worker (fun _ => none) excStr none none false (some (.ok ()))
        [QItem.task 1 0 (.ok 42), QItem.sentinel]).stop = some .gotEOF ∨
      ((worker (fun _ => none) excStr none none false (some (.ok ()))
          [QItem.task 1 0 (.ok 42), QItem.sentinel]).stop = some .maxtasksReached ∧
        (none : Option Nat) =
          some (worker (fun _ => none) excStr none none false (some (.ok ()))
            [QItem.task 1 0 (.ok 42), QItem.sentinel]).completed)) ∧
    (worker (fun _ => none) excStr none none false (some (.ok ()))
      [QItem.task 1 0 (.ok 42), QItem.sentinel]).finalizerCalls = 1 :=
  worker_termination_and_finalizer_once (fun _ => none) excStr none none false
    (some (.ok ())) [QItem.task 1 0 (.ok 42), QItem.sentinel]
    (Or.inl rfl) (fun _ h => Option.noConfusion h) (fun _ _ _ _ => rfl)
    ⟨.ok (), rfl⟩ (Or.inl ⟨QItem.sentinel, by simp, rfl⟩)

end Green
